import Mathlib

/-!
# ReLeaf — formal model of the environmental-metric and heat-zone pipeline

A shallow embedding, over `ℚ`, of the deterministic computational core of the
ReLeaf repository: derived-metric calculators (`realTimeDataService.ts`),
the untrained heat-island predictor and zone generator
(`heatIslandAnalysis.ts`), the action-plan generator
(`actionPlanGenerator.ts`), and the climate-impact analyzer
(`climateImpactAnalyzer.ts`).

JavaScript numeric conventions that matter here are made explicit:
`x || d` treats both `undefined` and `0` as absent (`jsOr`), and
`Math.round` rounds half toward positive infinity (`jsRound`).
Neural-network predictions (the "trained" state) are modelled as abstract
function parameters; every other computation is translated directly from
the TypeScript source.
-/

namespace ReLeaf

/-- JavaScript `x || d` on an optional numeric argument: both a missing value
and `0` fall back to the default (`0` is falsy in JavaScript). -/
def jsOr (o : Option ℚ) (d : ℚ) : ℚ :=
  match o with
  | none => d
  | some v => if v = 0 then d else v

/-- JavaScript `Math.round`: round half toward positive infinity. -/
def jsRound (x : ℚ) : ℤ := ⌊x + 1/2⌋

/-! ## Derived-metric calculators (`realTimeDataService.ts`) -/

/-- `RealTimeDataService.calculateUrbanHeatIndex` (realTimeDataService.ts
lines 1157–1168): for `temp ≥ 80` return
`Math.round(0.5*(temp + 61 + (temp-68)*1.2 + humidity*0.094))`,
otherwise return `temp` unchanged. -/
def calculateUrbanHeatIndex (temp humidity : ℚ) : ℚ :=
  if 80 ≤ temp then
    (jsRound (0.5 * (temp + 61.0 + ((temp - 68) * 1.2) + (humidity * 0.094))) : ℚ)
  else temp

/-- Cloud-cover penalty factor of `calculateVisibility`
(the first if/else-if chain, lines 258–260). -/
def cloudFactor (cloudCover : ℚ) : ℚ :=
  if 80 < cloudCover then 0.7
  else if 60 < cloudCover then 0.8
  else if 40 < cloudCover then 0.9
  else 1

/-- Precipitation penalty factor of `calculateVisibility` (lines 263–265). -/
def precipFactor (precipitation : ℚ) : ℚ :=
  if 5 < precipitation then 0.5
  else if 2 < precipitation then 0.7
  else if 0.5 < precipitation then 0.9
  else 1

/-- Humidity (fog) penalty factor of `calculateVisibility` (lines 268–269). -/
def humidityFogFactor (humidity : ℚ) : ℚ :=
  if 90 < humidity then 0.6
  else if 80 < humidity then 0.8
  else 1

/-- `RealTimeDataService.calculateVisibility` (lines 254–272): start from a
base of 10 km, apply the three cumulative penalty factors (each if/else-if
chain multiplies the running value by at most one factor), then clamp to
`[0.1, 10]` via `Math.max(0.1, Math.min(10, v))`. -/
def calculateVisibility (cloudCover precipitation humidity : ℚ) : ℚ :=
  max 0.1 (min 10 (10 * cloudFactor cloudCover * precipFactor precipitation
    * humidityFogFactor humidity))

/-! ## AQI breakpoint interpolation (`realTimeDataService.ts` 357–393) -/

/-- One EPA breakpoint row `[lowConc, highConc, lowAQI, highAQI]`. -/
abbrev AQIRow := ℚ × ℚ × ℚ × ℚ

/-- The EPA PM2.5 breakpoint table of `calculateAQIComponent`. -/
def pm25Breakpoints : List AQIRow :=
  [(0, 12, 0, 50), (12.1, 35.4, 51, 100), (35.5, 55.4, 101, 150),
   (55.5, 150.4, 151, 200), (150.5, 250.4, 201, 300), (250.5, 500.4, 301, 500)]

/-- The EPA PM10 breakpoint table of `calculateAQIComponent`. -/
def pm10Breakpoints : List AQIRow :=
  [(0, 54, 0, 50), (55, 154, 51, 100), (155, 254, 101, 150),
   (255, 354, 151, 200), (355, 424, 201, 300), (425, 604, 301, 500)]

/-- The EPA ozone breakpoint table of `calculateAQIComponent`. -/
def o3Breakpoints : List AQIRow :=
  [(0, 0.054, 0, 50), (0.055, 0.070, 51, 100), (0.071, 0.085, 101, 150),
   (0.086, 0.105, 151, 200), (0.106, 0.200, 201, 300), (0.201, 0.604, 301, 500)]

/-- The EPA NO2 breakpoint table of `calculateAQIComponent`. -/
def no2Breakpoints : List AQIRow :=
  [(0, 0.053, 0, 50), (0.054, 0.100, 51, 100), (0.101, 0.360, 101, 150),
   (0.361, 0.649, 151, 200), (0.650, 1.249, 201, 300), (1.250, 2.049, 301, 500)]

/-- The EPA CO breakpoint table of `calculateAQIComponent`. -/
def coBreakpoints : List AQIRow :=
  [(0, 4.4, 0, 50), (4.5, 9.4, 51, 100), (9.5, 12.4, 101, 150),
   (12.5, 15.4, 151, 200), (15.5, 30.4, 201, 300), (30.5, 50.4, 301, 500)]

/-- The keys of the `breakpoints` dictionary of `calculateAQIComponent`. -/
inductive Pollutant
  | pm25 | pm10 | o3 | no2 | co
deriving DecidableEq, Repr

/-- The `breakpoints` dictionary of `calculateAQIComponent`. -/
def breakpointsOf : Pollutant → List AQIRow
  | .pm25 => pm25Breakpoints
  | .pm10 => pm10Breakpoints
  | .o3 => o3Breakpoints
  | .no2 => no2Breakpoints
  | .co => coBreakpoints

/-- `RealTimeDataService.calculateAQIComponent` (lines 376–393): scan the
breakpoint rows in order; the first row with `low ≤ value ≤ high` yields
`Math.round(((aqiHigh-aqiLow)/(high-low))*(value-low)+aqiLow)`; if no row
matches, return 0. -/
def calculateAQIComponent (bp : List AQIRow) (value : ℚ) : ℚ :=
  match bp with
  | [] => 0
  | (lo, hi, aqiLo, aqiHi) :: rest =>
    if lo ≤ value ∧ value ≤ hi then
      (jsRound (((aqiHi - aqiLo) / (hi - lo)) * (value - lo) + aqiLo) : ℚ)
    else calculateAQIComponent rest value

/-- `RealTimeDataService.calculateAQI` (lines 357–374): read the five
pollutant concentrations with `|| 0` defaulting, compute each per-pollutant
AQI, and return `Math.max` over the five values. -/
def calculateAQI (pm25 pm10 o3 no2 co : Option ℚ) : ℚ :=
  let c1 := calculateAQIComponent pm25Breakpoints (jsOr pm25 0)
  let c2 := calculateAQIComponent pm10Breakpoints (jsOr pm10 0)
  let c3 := calculateAQIComponent o3Breakpoints (jsOr o3 0)
  let c4 := calculateAQIComponent no2Breakpoints (jsOr no2 0)
  let c5 := calculateAQIComponent coBreakpoints (jsOr co 0)
  max (max (max (max c1 c2) c3) c4) c5

/-! ## Data model (`src/types`, reconstructed from field usage)

String identity fields (`id`, `name`), map geometry and the random
confidence value are not needed by any claim; zone ids are replaced by the
zone's position (`zoneIdx`) in the processed list. -/

/-- Zone land-use classification. -/
inductive LandUse
  | commercial | residential | industrial | mixed
deriving DecidableEq, Repr

/-- Heat-zone severity tier. -/
inductive Severity
  | critical | high | moderate | low
deriving DecidableEq, Repr

/-- Action-plan priority tier. -/
inductive Priority
  | high | medium | low
deriving DecidableEq, Repr

/-- The eight action types of `ActionPlanGenerator.actionTypes`. -/
inductive ActionType
  | tree_planting | green_roof | cool_pavement | urban_park
  | shade_structure | water_feature | smart_irrigation | cooling_center
deriving DecidableEq, Repr

/-- The `actionTypes` tuple of `ActionPlanGenerator` (line 10), in source
order. -/
def allActionTypes : List ActionType :=
  [.tree_planting, .green_roof, .cool_pavement, .urban_park,
   .shade_structure, .water_feature, .smart_irrigation, .cooling_center]

/-- `City`: static reference data for a predefined city. -/
structure City where
  id : String
  name : String
  population : ℚ
  averageTemp : ℚ
  vegetationCoverage : ℚ
  elevation : ℚ
  coastalDistance : ℚ

/-- The prediction block of a `HeatZone` (rounded values, as stored). -/
structure HeatZonePrediction where
  temperatureIncrease : ℚ
  riskScore : ℚ
deriving DecidableEq, Repr

/-- `HeatZone`: a generated sub-area of a city (geometry and id omitted). -/
structure HeatZone where
  landUseType : LandUse
  temperature : ℚ
  severity : Severity
  vegetationIndex : ℚ
  buildingDensity : ℚ
  surfaceAlbedo : ℚ
  predictions : HeatZonePrediction
deriving DecidableEq, Repr

/-- The fields of `RealTimeClimateData` consumed by the generators;
`aqi` models the optional nested `airQuality?.aqi` access. -/
structure RTWeather where
  temperature : ℚ
  humidity : ℚ
  aqi : Option ℚ

/-- The fields of `RealTimeEnvironmentalData` consumed by the action-plan
generator. -/
structure RTEnv where
  carbonEmissions : ℚ
  energyConsumption : ℚ
  airPollutionLevel : ℚ

/-! ## Heat-island predictor (`heatIslandAnalysis.ts`) -/

/-- `HeatIslandPredictor.fallbackPrediction` (lines 229–267): the untrained
deterministic prediction. The `Object.entries(weights).reduce` sum is
modelled as a fold over the (weight, normalized input) pairs in the same
key order. Note the source normalizes `surfaceAlbedo` by 100 here, while
`trainModel` (line 131) normalizes it by 50. The optional `currentTemp` and
`humidity` arguments default via `|| 75` and `|| 60`. -/
def fallbackPrediction (buildingDensity vegetationIndex surfaceAlbedo elevation
    coastalDistance populationDensity : ℚ) (currentTemp humidity : Option ℚ) : ℚ :=
  let weighted : List (ℚ × ℚ) :=
    [(0.35, buildingDensity / 100),
     (-0.42, vegetationIndex / 100),
     (-0.28, surfaceAlbedo / 100),
     (-0.15, min (elevation / 1000) 1),
     (0.18, min (coastalDistance / 500) 1),
     (0.22, min (populationDensity / 10000) 1),
     (0.12, jsOr currentTemp 75 / 120),
     (-0.08, jsOr humidity 60 / 100)]
  let prediction := weighted.foldl (fun sum wv => sum + wv.2 * wv.1) 0
  max 0 (prediction * 15)

/-- The untrained prediction as the specification claims it: the same fixed
linear combination, but with every input normalized exactly as the training
features are — in particular `surfaceAlbedo / 50`. Written from the spec's
words, to be compared against `fallbackPrediction` from the source. -/
def specClaimedFallbackPrediction (buildingDensity vegetationIndex surfaceAlbedo
    elevation coastalDistance populationDensity : ℚ)
    (currentTemp humidity : Option ℚ) : ℚ :=
  max 0 (15 * (0.35 * (buildingDensity / 100)
    + (-0.42) * (vegetationIndex / 100)
    + (-0.28) * (surfaceAlbedo / 50)
    + (-0.15) * min (elevation / 1000) 1
    + 0.18 * min (coastalDistance / 500) 1
    + 0.22 * min (populationDensity / 10000) 1
    + 0.12 * (jsOr currentTemp 75 / 120)
    + (-0.08) * (jsOr humidity 60 / 100)))

/-- `HeatIslandPredictor.calculateRiskScore` (lines 269–273). -/
def calculateRiskScore (temperatureIncrease populationDensity : ℚ) : ℚ :=
  let tempRisk := min (temperatureIncrease / 10) 1
  let popRisk := min (populationDensity / 8000) 1
  (tempRisk * 0.7 + popRisk * 0.3) * 100

/-- Severity tier from the risk score (`generateHeatZones` lines 364–368). -/
def severityFromRisk (riskScore : ℚ) : Severity :=
  if 75 < riskScore then .critical
  else if 50 < riskScore then .high
  else if 25 < riskScore then .moderate
  else .low

/-- A zone template: land use plus nominal building density and vegetation
index (`name` omitted). -/
structure ZoneConfig where
  landUse : LandUse
  buildingDensity : ℚ
  vegIndex : ℚ

/-- The dynamic branch of `HeatIslandPredictor.generateCitySpecificZones`
(lines 454–493): the six templates synthesized from city characteristics
when the city id has no hard-coded table. -/
def dynamicZoneConfigs (city : City) : List ZoneConfig :=
  [{ landUse := .commercial,
     buildingDensity := min (85 + city.population / 100000) 95,
     vegIndex := max (city.vegetationCoverage * 0.3) 8 },
   { landUse := .industrial,
     buildingDensity := 65 + (city.population / 500000) * 10,
     vegIndex := max (city.vegetationCoverage * 0.2) 5 },
   { landUse := .residential,
     buildingDensity := 50 + (city.population / 1000000) * 15,
     vegIndex := max (city.vegetationCoverage * 0.6) 15 },
   { landUse := .mixed,
     buildingDensity := 60 + (city.population / 800000) * 12,
     vegIndex := max (city.vegetationCoverage * 0.4) 12 },
   { landUse := .commercial,
     buildingDensity := 75 + (city.population / 1200000) * 8,
     vegIndex := max (city.vegetationCoverage * 0.25) 10 },
   { landUse := .residential,
     buildingDensity := 40 + (city.population / 1500000) * 10,
     vegIndex := max (city.vegetationCoverage * 0.7) 20 }]

/-- The final adjustment applied to every config
(`generateCitySpecificZones` lines 497–501). -/
def adjustZoneConfig (city : City) (cfg : ZoneConfig) : ZoneConfig :=
  { cfg with
    buildingDensity := min 100 (max 20
      (cfg.buildingDensity + if 85 < city.averageTemp then 5 else 0)),
    vegIndex := min 100 (max 3
      (cfg.vegIndex + if 30 < city.vegetationCoverage then 5 else -3)) }

/-- `generateCitySpecificZones` for a city whose id is not one of the six
hard-coded ones: dynamic templates followed by the adjustment map. -/
def generateCitySpecificZonesUnknown (city : City) : List ZoneConfig :=
  (dynamicZoneConfigs city).map (adjustZoneConfig city)

/-- Surface albedo from land use (`generateHeatZones` lines 345–346). -/
def surfaceAlbedoOf (landUse : LandUse) : ℚ :=
  match landUse with
  | .industrial => 15
  | .commercial => 25
  | _ => 35

/-- One iteration of the `generateHeatZones` zone loop (lines 328–386) with
the predictor in the untrained state, so that `predictTemperatureIncrease`
reduces to `fallbackPrediction`. `snapTemp`/`snapHumidity` are the
real-time climate snapshot's temperature and humidity. -/
def buildZoneUntrained (city : City) (snapTemp snapHumidity : ℚ)
    (cfg : ZoneConfig) : HeatZone :=
  let surfaceAlbedo := surfaceAlbedoOf cfg.landUse
  let populationDensity := city.population / 1000 * (cfg.buildingDensity / 100)
  let tempIncrease := fallbackPrediction cfg.buildingDensity cfg.vegIndex
    surfaceAlbedo city.elevation city.coastalDistance populationDensity
    (some snapTemp) (some snapHumidity)
  let baseTemp := snapTemp + tempIncrease
  let riskScore := calculateRiskScore tempIncrease populationDensity
  { landUseType := cfg.landUse,
    temperature := (jsRound baseTemp : ℚ),
    severity := severityFromRisk riskScore,
    vegetationIndex := cfg.vegIndex,
    buildingDensity := cfg.buildingDensity,
    surfaceAlbedo := surfaceAlbedo,
    predictions := { temperatureIncrease := (jsRound tempIncrease : ℚ),
                     riskScore := (jsRound riskScore : ℚ) } }

/-- `generateHeatZones` in the untrained state for an unknown city: build a
zone per template, then sort by descending (rounded) risk score
(line 388). -/
def generateHeatZonesUntrained (city : City) (snapTemp snapHumidity : ℚ) :
    List HeatZone :=
  ((generateCitySpecificZonesUnknown city).map
    (buildZoneUntrained city snapTemp snapHumidity)).mergeSort
    (fun a b => b.predictions.riskScore ≤ a.predictions.riskScore)

/-- The synthetic city of the end-to-end scenario in §8 of the spec:
population 1,000,000, vegetation 10 %, average 95 °F, elevation 100 ft,
coastal distance 50 mi; its id matches no hard-coded table. -/
def syntheticCity : City :=
  { id := "synthetic", name := "Synthetic", population := 1000000,
    averageTemp := 95, vegetationCoverage := 10, elevation := 100,
    coastalDistance := 50 }

/-- The zones the untrained pipeline produces for the synthetic city with a
snapshot of 95 °F and 30 % humidity. -/
def syntheticZones : List HeatZone := generateHeatZonesUntrained syntheticCity 95 30

/-! ## Action plan generator (`actionPlanGenerator.ts`) -/

/-- An `ActionPlan` as far as the claims observe it: the emitting zone's
position in the processed list, the action type, and the priority tier.
(The randomly offset location, the impact/implementation estimates and the
id string are not referenced by any claim.) -/
structure Plan where
  zoneIdx : ℕ
  actionType : ActionType
  priority : Priority
deriving DecidableEq, Repr

/-- The per-zone quota (`generatePlans` lines 211–212):
critical → 3, high → 2, else 1. -/
def severityQuota (s : Severity) : ℕ :=
  match s with
  | .critical => 3
  | .high => 2
  | _ => 1

/-- Plan priority from zone severity (`generatePlans` lines 246–247). -/
def planPriority (s : Severity) : Priority :=
  match s with
  | .critical => .high
  | .high => .medium
  | _ => .low

/-- `ActionPlanGenerator.enhancedFallbackActionSelection` (lines 348–401):
the untrained rule-based candidate list, truncated to 4 entries. Weather
and environmental accesses use JavaScript `||` defaulting. -/
def enhancedFallbackActionSelection (zone : HeatZone) (city : City)
    (w : Option RTWeather) (env : Option RTEnv) : List ActionType :=
  let currentTemp := jsOr (w.map (·.temperature)) city.averageTemp
  let currentHumidity := jsOr (w.map (·.humidity)) 60
  let airQuality := jsOr (w.bind (·.aqi)) 3
  let carbonEmissions := jsOr (env.map (·.carbonEmissions)) 0
  let actions : List ActionType :=
    (if zone.vegetationIndex < 15 then [.tree_planting] else [])
    ++ (if zone.landUseType = .commercial ∨ 85 < currentTemp then [.green_roof] else [])
    ++ (if zone.surfaceAlbedo < 25 ∨ 90 < currentTemp then [.cool_pavement] else [])
    ++ (if 70 < zone.buildingDensity ∧ zone.vegetationIndex < 25 then [.urban_park] else [])
    ++ (if 95 < currentTemp ∧ 3 < airQuality then [.shade_structure] else [])
    ++ (if 80 < currentHumidity ∨ 8000 < carbonEmissions then [.water_feature] else [])
    ++ (if zone.vegetationIndex < 20 ∧ 80 < currentTemp then [.smart_irrigation] else [])
    ++ (if 100 < currentTemp ∨ zone.severity = .critical then [.cooling_center] else [])
    ++ (if city.id = "phoenix" ∧ 95 < currentTemp then [.cool_pavement, .shade_structure] else [])
    ++ (if city.id = "miami" ∧ 80 < currentHumidity then [.green_roof, .water_feature] else [])
    ++ (if city.id = "las_vegas" ∧ zone.landUseType = .commercial then [.green_roof, .shade_structure] else [])
    ++ (if city.id = "houston" ∧ 8000 < carbonEmissions then [.smart_irrigation, .water_feature] else [])
  actions.take 4

/-- `ActionPlanGenerator.getFallbackActions` (lines 269–298): zone-type
base actions followed by weather- and emissions-triggered extras. -/
def getFallbackActions (zone : HeatZone) (city : City)
    (w : Option RTWeather) (env : Option RTEnv) : List ActionType :=
  let currentTemp := jsOr (w.map (·.temperature)) city.averageTemp
  let currentHumidity := jsOr (w.map (·.humidity)) 60
  let carbonEmissions := jsOr (env.map (·.carbonEmissions)) 0
  let base : List ActionType :=
    match zone.landUseType with
    | .commercial => [.shade_structure, .cool_pavement, .green_roof]
    | .residential => [.tree_planting, .urban_park, .water_feature]
    | .industrial => [.smart_irrigation, .cool_pavement, .green_roof]
    | _ => [.tree_planting, .urban_park, .water_feature]
  base
    ++ (if 95 < currentTemp then [.cooling_center, .shade_structure] else [])
    ++ (if 80 < currentHumidity then [.water_feature, .smart_irrigation] else [])
    ++ (if 8000 < carbonEmissions then [.tree_planting, .urban_park] else [])

/-- The candidate list one zone iteration of `generatePlans` draws from
(lines 218–229): the predicted actions not yet used this run, followed by
the fallback actions that are neither used nor among the predicted ones.
`predictFn` abstracts `predictOptimalActions`: in the untrained state it is
`enhancedFallbackActionSelection`, in the trained state the classifier's
top-4 list. -/
def zoneCandidates (predictFn : HeatZone → List ActionType) (zone : HeatZone)
    (city : City) (w : Option RTWeather) (env : Option RTEnv)
    (used : List ActionType) : List ActionType :=
  let availableActions : List ActionType :=
    (predictFn zone).filter (fun a => decide (a ∉ used))
  let additionalActions : List ActionType :=
    (getFallbackActions zone city w env).filter
      (fun a => decide (a ∉ used) && decide (a ∉ availableActions))
  availableActions ++ additionalActions

/-- The action types one zone iteration emits: the candidate list truncated
to the severity quota (`generatePlans` lines 229–231). -/
def zoneTypes (predictFn : HeatZone → List ActionType) (zone : HeatZone)
    (city : City) (w : Option RTWeather) (env : Option RTEnv)
    (used : List ActionType) : List ActionType :=
  (zoneCandidates predictFn zone city w env used).take (severityQuota zone.severity)

/-- The plans one zone iteration pushes (`generatePlans` lines 231–254). -/
def zoneStep (predictFn : HeatZone → List ActionType) (zone : HeatZone)
    (city : City) (w : Option RTWeather) (env : Option RTEnv)
    (used : List ActionType) (idx : ℕ) : List Plan :=
  (zoneTypes predictFn zone city w env used).map
    (fun a => { zoneIdx := idx, actionType := a, priority := planPriority zone.severity })

/-- The zone loop of `generatePlans` (lines 210–255): thread the
`usedActionTypes` set (modelled as a list with the same membership) through
the zones, appending each zone's emitted types. -/
def generatePlansGo (predictFn : HeatZone → List ActionType) (city : City)
    (w : Option RTWeather) (env : Option RTEnv) :
    List HeatZone → List ActionType → ℕ → List Plan
  | [], _, _ => []
  | zone :: zs, used, idx =>
    let plans := zoneStep predictFn zone city w env used idx
    plans ++ generatePlansGo predictFn city w env zs
      (used ++ plans.map (·.actionType)) (idx + 1)

/-- `ActionPlanGenerator.generatePlans` with an abstract candidate
predictor (covering both the trained and the untrained state). -/
def generatePlansWith (predictFn : HeatZone → List ActionType)
    (zones : List HeatZone) (city : City) (w : Option RTWeather)
    (env : Option RTEnv) : List Plan :=
  generatePlansGo predictFn city w env zones [] 0

/-- `ActionPlanGenerator.generatePlans` in the untrained state, where
`predictOptimalActions` falls back to `enhancedFallbackActionSelection`
(lines 300–304). -/
def generatePlans (zones : List HeatZone) (city : City) (w : Option RTWeather)
    (env : Option RTEnv) : List Plan :=
  generatePlansWith (fun z => enhancedFallbackActionSelection z city w env)
    zones city w env

/-- The `usedActionTypes` list as it stands when the zone at position `i`
starts processing (`generatePlansGo` unrolled `i` steps). -/
def usedAtZone (predictFn : HeatZone → List ActionType) (city : City)
    (w : Option RTWeather) (env : Option RTEnv) :
    List HeatZone → List ActionType → ℕ → List ActionType
  | _, used, 0 => used
  | [], used, _ + 1 => used
  | zone :: zs, used, i + 1 =>
    usedAtZone predictFn city w env zs
      (used ++ zoneTypes predictFn zone city w env used) i

/-! ## Climate impact analyzer (`climateImpactAnalyzer.ts`) -/

/-- Adaptation urgency tier of a `ClimateImpact`. -/
inductive Urgency
  | low | medium | high | critical
deriving DecidableEq, Repr

/-- One entry of the future prediction series (`ClimatePrediction`). -/
structure ClimatePrediction where
  year : ℤ
  temperatureIncrease : ℚ
  seaLevelRise : ℚ
  extremeWeatherEvents : ℚ
  airQualityIndex : ℚ
  energyDemand : ℚ
  healthImpacts : ℚ
deriving DecidableEq, Repr

/-- `ClimateImpact` as far as the claims observe it. The recommendation
list (string-valued titles/descriptions) and the static `modelMetrics`
block (whose `lastUpdated` is `Date.now()`) are not referenced by any
claim and are omitted. -/
structure ClimateImpact where
  carbonFootprint : ℚ
  energyConsumption : ℚ
  healthRiskScore : ℚ
  economicImpact : ℚ
  adaptationUrgency : Urgency
  predictedTemperatureRise : ℚ
  vulnerablePopulations : ℚ
  infrastructureRisk : ℚ
  biodiversityImpact : ℚ
  futurePredictions : List ClimatePrediction

/-- The fields of `RealTimeEnvironmentalData` read by
`analyzeClimateImpact`. -/
structure RTEnvironmental where
  carbonEmissions : ℚ
  energyConsumption : ℚ
  greenSpaceCoverage : ℚ
  trafficDensity : ℚ
  airPollutionLevel : ℚ
  surfaceTemperature : ℚ
  vulnerablePopulations : ℚ
  urbanHeatIndex : ℚ

/-- JavaScript `v ? f(v) : e` on an optionally-present numeric field:
a missing object and a zero field value both take the else branch. -/
def jsIfTruthy (v : Option ℚ) (f : ℚ → ℚ) (e : ℚ) : ℚ :=
  match v with
  | none => e
  | some x => if x = 0 then e else f x

/-- Average zone temperature, `reduce(..)/length` (line 269 / 409 / 814).
For the empty list JavaScript yields NaN; here `ℚ` division by zero yields
0 — every claim about this value assumes a non-empty zone list. -/
def avgZoneTemp (zones : List HeatZone) : ℚ :=
  (zones.map (·.temperature)).sum / zones.length

/-- Number of critical zones (line 270 / 410). -/
def criticalZoneCount (zones : List HeatZone) : ℕ :=
  (zones.filter (fun z => z.severity == .critical)).length

/-- `ClimateImpactAnalyzer.predictFutureClimate` (lines 808–828): one
prediction per 5-year step, `year = currentYear+5 .. currentYear+50`. -/
def predictFutureClimate (currentYear : ℤ) (city : City)
    (heatZones : List HeatZone) : List ClimatePrediction :=
  (List.range 10).map (fun (i : ℕ) =>
    let yearsFromNow : ℚ := 5 * ((i : ℚ) + 1)
    let avgT := avgZoneTemp heatZones
    { year := currentYear + 5 * ((i : ℤ) + 1),
      temperatureIncrease :=
        (jsRound ((2.5 + yearsFromNow * 0.1 + (avgT - 75) * 0.05) * 10) : ℚ) / 10,
      seaLevelRise :=
        if city.coastalDistance < 100 then
          (jsRound ((0.1 + yearsFromNow * 0.02) * 10) : ℚ) / 10
        else 0,
      extremeWeatherEvents :=
        (jsRound (5 + yearsFromNow * 0.5 + (avgT - 75) * 0.1) : ℚ),
      airQualityIndex :=
        min 5 ((jsRound ((2 + yearsFromNow * 0.1 + (avgT - 75) * 0.02) * 10) : ℚ) / 10),
      energyDemand :=
        (jsRound (8000 + yearsFromNow * 200 + (avgT - 75) * 50) : ℚ),
      healthImpacts :=
        (jsRound ((avgT - 75) * 0.5 + yearsFromNow * 0.2) : ℚ) })

/-- The `cityEnergyData[name].baseConsumption` table of
`fallbackClimateAnalysis` (lines 422–435) with its `|| {baseConsumption:
12000000, ...}` default. -/
def cityBaseConsumption (name : String) : ℚ :=
  if name = "Phoenix" then 15000000
  else if name = "Las Vegas" then 12000000
  else if name = "Miami" then 18000000
  else if name = "Atlanta" then 14000000
  else if name = "Houston" then 22000000
  else if name = "Dallas" then 19000000
  else if name = "Los Angeles" then 25000000
  else if name = "New York" then 35000000
  else if name = "Chicago" then 28000000
  else if name = "Philadelphia" then 16000000
  else 12000000

/-- The `cityEmissions[name] || 5000000` table of
`fallbackClimateAnalysis` (lines 438–451). -/
def cityEmissionsOf (name : String) : ℚ :=
  if name = "Phoenix" then 8500000
  else if name = "Las Vegas" then 7200000
  else if name = "Miami" then 6800000
  else if name = "Atlanta" then 7500000
  else if name = "Houston" then 9200000
  else if name = "Dallas" then 8100000
  else if name = "Los Angeles" then 15000000
  else if name = "New York" then 25000000
  else if name = "Chicago" then 18000000
  else if name = "Philadelphia" then 12000000
  else 5000000

/-- Adaptation urgency from the impact score (line 320 / 459). -/
def urgencyOf (impactScore : ℚ) : Urgency :=
  if 0.7 < impactScore then .critical
  else if 0.5 < impactScore then .high
  else if 0.3 < impactScore then .medium
  else .low

/-- `ClimateImpactAnalyzer.fallbackClimateAnalysis` (lines 408–477): the
untrained analysis path. Note `futurePredictions` is the empty list
(line 465). -/
def fallbackClimateAnalysis (heatZones : List HeatZone) (city : City) :
    ClimateImpact :=
  let avgT := avgZoneTemp heatZones
  let criticalZones : ℚ := criticalZoneCount heatZones
  let impactScore := (avgT - 75) / 20 + criticalZones / heatZones.length * 0.3
  let tempFactor := min 1 ((city.averageTemp - 70) / 30)
  let vegetationFactor := (100 - city.vegetationCoverage) / 100
  let populationFactor := min 1 (city.population / 2000000)
  let coastalFactor : ℚ := if city.coastalDistance < 100 then 0.8 else 1.0
  let healthRiskScore := min 1 (tempFactor * 0.3 + vegetationFactor * 0.3
    + populationFactor * 0.2 + coastalFactor * 0.2)
  { carbonFootprint := cityEmissionsOf city.name,
    energyConsumption := cityBaseConsumption city.name,
    healthRiskScore := healthRiskScore,
    economicImpact := impactScore * city.population * 0.001,
    adaptationUrgency := urgencyOf impactScore,
    predictedTemperatureRise := max 1 (min 15 ((avgT - 75) * 0.3 + impactScore * 8)),
    vulnerablePopulations := (jsRound (city.population * (0.1 + impactScore * 0.2)) : ℚ),
    infrastructureRisk := max 10 (min 90 (impactScore * 100)),
    biodiversityImpact := 1 - city.vegetationCoverage / 100,
    futurePredictions := [] }

/-- `ClimateImpactAnalyzer.analyzeClimateImpact` (lines 247–338). The
untrained state takes the fallback path; the trained state builds the
12-feature input vector, scores it with the network (abstracted as
`model`, clamped to [0,1] as in `predictClimateImpact`), and assembles the
impact record, including `predictFutureClimate` as `futurePredictions`. -/
def analyzeClimateImpact (trained : Bool) (model : List ℚ → ℚ)
    (rt : Option RTEnvironmental) (currentYear : ℤ)
    (heatZones : List HeatZone) (city : City) : ClimateImpact :=
  if !trained then fallbackClimateAnalysis heatZones city
  else
    let avgT := avgZoneTemp heatZones
    let criticalZones : ℚ := criticalZoneCount heatZones
    let vegetationCoverage := jsOr (rt.map (·.greenSpaceCoverage)) city.vegetationCoverage
    let buildingDensity := jsIfTruthy (rt.map (·.trafficDensity)) (fun t => t * 0.8) 70
    let imperviousSurface := 100 - vegetationCoverage
    let energyUse := jsOr (rt.map (·.energyConsumption)) (city.population * 0.015)
    let carbonIn := jsOr (rt.map (·.carbonEmissions)) (city.population * 0.012)
    let healthRiskIn := jsIfTruthy (rt.map (·.airPollutionLevel)) (fun l => l / 100) 0.5
    let normalizedInputs : List ℚ :=
      [avgT / 120, (heatZones.length : ℚ) / 15, criticalZones / 10,
       city.population / 5000000, vegetationCoverage / 100,
       min (city.coastalDistance / 500) 1, min (city.elevation / 1000) 1,
       buildingDensity / 100, imperviousSurface / 100, energyUse / 20000,
       carbonIn / 15000, healthRiskIn]
    let impactScore := max 0 (min 1 (model normalizedInputs))
    let tempFactor := jsIfTruthy (rt.map (·.surfaceTemperature))
      (fun st => min 1 ((st - 70) / 30)) 0.3
    let carbonFactor := jsIfTruthy (rt.map (·.carbonEmissions))
      (fun ce => min 1 (ce / 10000)) 0.2
    let vegetationFactor := jsIfTruthy (rt.map (·.greenSpaceCoverage))
      (fun g => (100 - g) / 100) 0.4
    let trafficFactor := jsIfTruthy (rt.map (·.trafficDensity)) (fun t => t / 100) 0.3
    let healthRiskScore := jsIfTruthy (rt.map (·.airPollutionLevel)) (fun l => l / 100)
      (min 1 (tempFactor * 0.3 + carbonFactor * 0.25 + vegetationFactor * 0.25
        + trafficFactor * 0.2))
    { carbonFootprint := jsOr (rt.map (·.carbonEmissions)) (city.population * 0.012),
      energyConsumption := jsOr (rt.map (·.energyConsumption)) (city.population * 0.015),
      healthRiskScore := healthRiskScore,
      economicImpact := impactScore * city.population * 0.001,
      adaptationUrgency := urgencyOf impactScore,
      predictedTemperatureRise := max 1 (min 15 ((avgT - 75) * 0.3 + impactScore * 8)),
      vulnerablePopulations := jsOr (rt.map (·.vulnerablePopulations))
        (jsRound (city.population * (0.1 + impactScore * 0.2)) : ℚ),
      infrastructureRisk := jsIfTruthy (rt.map (·.urbanHeatIndex))
        (fun u => max 10 (min 90 (jsRound (u / 10) : ℚ)))
        (max 10 (min 90 (jsRound (impactScore * 100) : ℚ))),
      biodiversityImpact := 1 - vegetationCoverage / 100,
      futurePredictions := predictFutureClimate currentYear city heatZones }

/-! ## Trained temperature-increase prediction (`heatIslandAnalysis.ts`
lines 179–227) -/

/-- The coordinates hard-coded into `predictTemperatureIncrease`'s
real-time fetch: Phoenix, regardless of the zone's city. -/
def phoenixCoordinates : ℚ × ℚ := (33.4484, -112.0740)

/-- `HeatIslandPredictor.predictTemperatureIncrease`. Untrained, it
delegates to `fallbackPrediction`. Trained, it initializes the weather
from the optional arguments (`|| 75`, `|| 60`), then tries the real-time
service at the fixed Phoenix coordinates — on success this overwrites both
values — normalizes the 8 features, scores them with the network
(abstracted as `model`), descales by 15 and clamps to [0, 15]. `service`
abstracts `getRealTimeClimateData`; `none` is the failure (catch) path. -/
def predictTemperatureIncrease (trained : Bool) (model : List ℚ → ℚ)
    (service : ℚ × ℚ → Option RTWeather)
    (buildingDensity vegetationIndex surfaceAlbedo elevation coastalDistance
      populationDensity : ℚ) (currentTemp humidity : Option ℚ) : ℚ :=
  if !trained then
    fallbackPrediction buildingDensity vegetationIndex surfaceAlbedo elevation
      coastalDistance populationDensity currentTemp humidity
  else
    let fetched := service phoenixCoordinates
    let weatherTemp := match fetched with
      | some d => d.temperature
      | none => jsOr currentTemp 75
    let weatherHumidity := match fetched with
      | some d => d.humidity
      | none => jsOr humidity 60
    let input : List ℚ :=
      [buildingDensity / 100, vegetationIndex / 100, surfaceAlbedo / 50,
       min (elevation / 1000) 1, min (coastalDistance / 500) 1,
       min (populationDensity / 10000) 1, weatherTemp / 120, weatherHumidity / 100]
    max 0 (min 15 (model input * 15))

/-! ## Concrete runs used to settle the action-plan claims -/

/-- A city whose id triggers no city-specific action rules. -/
def plainCity : City :=
  { id := "testcity", name := "Test City", population := 500000,
    averageTemp := 70, vegetationCoverage := 30, elevation := 100,
    coastalDistance := 200 }

/-- A calm residential zone of critical severity. -/
def criticalResidentialZone : HeatZone :=
  { landUseType := .residential, temperature := 80, severity := .critical,
    vegetationIndex := 30, buildingDensity := 60, surfaceAlbedo := 35,
    predictions := { temperatureIncrease := 5, riskScore := 80 } }

/-- The same zone at low severity. -/
def lowResidentialZone : HeatZone :=
  { landUseType := .residential, temperature := 80, severity := .low,
    vegetationIndex := 30, buildingDensity := 60, surfaceAlbedo := 35,
    predictions := { temperatureIncrease := 1, riskScore := 20 } }

/-- Environmental data with carbon emissions above the 8000 threshold. -/
def highCarbonEnv : RTEnv :=
  { carbonEmissions := 9000, energyConsumption := 0, airPollutionLevel := 3 }

/-- An untrained `generatePlans` run over two critical residential zones
with high-carbon environmental data: the second zone's fallback list
repeats `urban_park` after every unique candidate is exhausted. -/
def duplicateTypeRun : List Plan :=
  generatePlans [criticalResidentialZone, criticalResidentialZone] plainCity
    none (some highCarbonEnv)

/-- An untrained `generatePlans` run over three residential zones
(critical, low, low) with no real-time data: the third zone's candidate
lists are exhausted while four action types are still unused. -/
def quotaShortfallRun : List Plan :=
  generatePlans [criticalResidentialZone, lowResidentialZone, lowResidentialZone]
    plainCity none none

/-! ## Claim C2 — heat index -/

/-- C2 counterexample: at temperature 80 °F and humidity 0 the heat index
branch yields `round(0.5*(80+61+14.4+0)) = 78`, which is strictly below
the input temperature — refuting the claim that the result is `≥ T`
whenever `T ≥ 80`. -/
theorem calculateUrbanHeatIndex_counterexample :
    calculateUrbanHeatIndex 80 0 < 80 := by
  norm_num [calculateUrbanHeatIndex, jsRound]

/-- C2 (amended): the heat index returns the temperature unchanged for
`T < 80`; for `T ≥ 80` it returns
`round(0.5*(T + 61 + (T-68)*1.2 + H*0.094))`, and this value is `≥ T`
whenever additionally `0.1*T + 0.047*H ≥ 10.8` (at low humidity and
moderate `T ≥ 80` it can drop below `T`, as the counterexample shows). -/
theorem calculateUrbanHeatIndex_spec (T H : ℚ) :
    (T < 80 → calculateUrbanHeatIndex T H = T) ∧
    (80 ≤ T →
      calculateUrbanHeatIndex T H =
        (jsRound (0.5 * (T + 61.0 + ((T - 68) * 1.2) + (H * 0.094))) : ℚ)) ∧
    (80 ≤ T → 10.8 ≤ 0.1 * T + 0.047 * H → T ≤ calculateUrbanHeatIndex T H) := by
  refine ⟨fun h => ?_, fun h => ?_, fun h hTH => ?_⟩
  · simp [calculateUrbanHeatIndex, not_le.mpr h]
  · simp [calculateUrbanHeatIndex, h]
  · have hix : calculateUrbanHeatIndex T H =
        (jsRound (0.5 * (T + 61.0 + ((T - 68) * 1.2) + (H * 0.094))) : ℚ) := by
      simp [calculateUrbanHeatIndex, h]
    rw [hix, jsRound]
    have hlow : T + 1 ≤ 0.5 * (T + 61.0 + ((T - 68) * 1.2) + (H * 0.094)) + 1/2 := by
      nlinarith
    have hfl := Int.sub_one_lt_floor
      (0.5 * (T + 61.0 + ((T - 68) * 1.2) + (H * 0.094)) + 1/2)
    have : T < (⌊0.5 * (T + 61.0 + ((T - 68) * 1.2) + (H * 0.094)) + 1/2⌋ : ℚ) := by
      linarith
    linarith

/-- Witness for C2: the theorem applied at `(70, 50)` (below-threshold
branch) and at `(95, 80)` (where `0.1*95 + 0.047*80 = 13.26 ≥ 10.8`). -/
theorem calculateUrbanHeatIndex_spec_witness :
    ((70 : ℚ) < 80 ∧ calculateUrbanHeatIndex 70 50 = 70) ∧
    ((80 : ℚ) ≤ 95 ∧ (10.8 : ℚ) ≤ 0.1 * 95 + 0.047 * 80 ∧
      (95 : ℚ) ≤ calculateUrbanHeatIndex 95 80) :=
  ⟨⟨by norm_num, (calculateUrbanHeatIndex_spec 70 50).1 (by norm_num)⟩,
   ⟨by norm_num, by norm_num,
    (calculateUrbanHeatIndex_spec 95 80).2.2 (by norm_num) (by norm_num)⟩⟩

/-! ## Claim C9 — visibility estimate -/

/-- The cloud-cover factor is nonnegative. -/
lemma cloudFactor_nonneg (c : ℚ) : 0 ≤ cloudFactor c := by
  unfold cloudFactor; split_ifs <;> norm_num

/-- The precipitation factor is nonnegative. -/
lemma precipFactor_nonneg (p : ℚ) : 0 ≤ precipFactor p := by
  unfold precipFactor; split_ifs <;> norm_num

/-- The humidity factor is nonnegative. -/
lemma humidityFogFactor_nonneg (h : ℚ) : 0 ≤ humidityFogFactor h := by
  unfold humidityFogFactor; split_ifs <;> norm_num

/-- The cloud-cover factor is non-increasing. -/
lemma cloudFactor_anti {c c' : ℚ} (hcc : c ≤ c') : cloudFactor c' ≤ cloudFactor c := by
  unfold cloudFactor; split_ifs <;> linarith

/-- The precipitation factor is non-increasing. -/
lemma precipFactor_anti {p p' : ℚ} (hpp : p ≤ p') : precipFactor p' ≤ precipFactor p := by
  unfold precipFactor; split_ifs <;> linarith

/-- The humidity factor is non-increasing. -/
lemma humidityFogFactor_anti {h h' : ℚ} (hhh : h ≤ h') :
    humidityFogFactor h' ≤ humidityFogFactor h := by
  unfold humidityFogFactor; split_ifs <;> linarith

/-- The `[0.1, 10]` clamp is monotone in its input. -/
lemma visClamp_mono {x y : ℚ} (hxy : x ≤ y) :
    max 0.1 (min 10 x) ≤ max 0.1 (min 10 y) :=
  max_le_max le_rfl (min_le_min le_rfl hxy)

/-- C9 (confirmed): the visibility estimate is monotonically non-increasing
in cloud cover, precipitation and humidity individually, and always lies in
`[0.1, 10]`. -/
theorem calculateVisibility_spec :
    (∀ c c' p h : ℚ, c ≤ c' →
      calculateVisibility c' p h ≤ calculateVisibility c p h) ∧
    (∀ c p p' h : ℚ, p ≤ p' →
      calculateVisibility c p' h ≤ calculateVisibility c p h) ∧
    (∀ c p h h' : ℚ, h ≤ h' →
      calculateVisibility c p h' ≤ calculateVisibility c p h) ∧
    (∀ c p h : ℚ, 0.1 ≤ calculateVisibility c p h ∧ calculateVisibility c p h ≤ 10) := by
  refine ⟨fun c c' p h hcc => ?_, fun c p p' h hpp => ?_, fun c p h h' hhh => ?_,
    fun c p h => ⟨le_max_left _ _, max_le (by norm_num) (min_le_left _ _)⟩⟩
  · apply visClamp_mono
    have h1 : 10 * cloudFactor c' ≤ 10 * cloudFactor c := by
      linarith [cloudFactor_anti hcc]
    exact mul_le_mul_of_nonneg_right
      (mul_le_mul_of_nonneg_right h1 (precipFactor_nonneg p))
      (humidityFogFactor_nonneg h)
  · apply visClamp_mono
    have h1 : 10 * cloudFactor c * precipFactor p' ≤ 10 * cloudFactor c * precipFactor p :=
      mul_le_mul_of_nonneg_left (precipFactor_anti hpp)
        (mul_nonneg (by norm_num) (cloudFactor_nonneg c))
    exact mul_le_mul_of_nonneg_right h1 (humidityFogFactor_nonneg h)
  · apply visClamp_mono
    exact mul_le_mul_of_nonneg_left (humidityFogFactor_anti hhh)
      (mul_nonneg (mul_nonneg (by norm_num) (cloudFactor_nonneg c))
        (precipFactor_nonneg p))

/-- Witness for C9: the monotonicity parts applied at concrete inputs
(cloud cover 50 ≤ 90, precipitation 1 ≤ 6, humidity 70 ≤ 95). -/
theorem calculateVisibility_spec_witness :
    ((50 : ℚ) ≤ 90 ∧ calculateVisibility 90 1 70 ≤ calculateVisibility 50 1 70) ∧
    ((1 : ℚ) ≤ 6 ∧ calculateVisibility 50 6 70 ≤ calculateVisibility 50 1 70) ∧
    ((70 : ℚ) ≤ 95 ∧ calculateVisibility 50 1 95 ≤ calculateVisibility 50 1 70) :=
  ⟨⟨by norm_num, calculateVisibility_spec.1 50 90 1 70 (by norm_num)⟩,
   ⟨by norm_num, calculateVisibility_spec.2.1 50 1 6 70 (by norm_num)⟩,
   ⟨by norm_num, calculateVisibility_spec.2.2.1 50 1 70 95 (by norm_num)⟩⟩

/-! ## Claim C5 — AQI breakpoint interpolation -/

/-- A concentration matching no breakpoint row yields AQI 0. -/
lemma calculateAQIComponent_no_match (bp : List AQIRow) (v : ℚ)
    (hm : ∀ r ∈ bp, ¬ (r.1 ≤ v ∧ v ≤ r.2.1)) : calculateAQIComponent bp v = 0 := by
  induction bp with
  | nil => rfl
  | cons head tail ih =>
    obtain ⟨lo, hi, alo, ahi⟩ := head
    rw [calculateAQIComponent, if_neg (hm (lo, hi, alo, ahi) (List.mem_cons_self _ _))]
    exact ih (fun r hr => hm r (List.mem_cons_of_mem _ hr))

/-- A concentration inside a row, with every earlier row non-matching,
yields that row's interpolated AQI. -/
lemma calculateAQIComponent_in_row (pre post : List AQIRow) (lo hi alo ahi v : ℚ)
    (hpre : ∀ r ∈ pre, ¬ (r.1 ≤ v ∧ v ≤ r.2.1)) (h1 : lo ≤ v) (h2 : v ≤ hi) :
    calculateAQIComponent (pre ++ (lo, hi, alo, ahi) :: post) v =
      (jsRound (((ahi - alo) / (hi - lo)) * (v - lo) + alo) : ℚ) := by
  induction pre with
  | nil => rw [List.nil_append, calculateAQIComponent, if_pos ⟨h1, h2⟩]
  | cons head tail ih =>
    obtain ⟨l, h, al, ah⟩ := head
    rw [List.cons_append, calculateAQIComponent,
      if_neg (hpre (l, h, al, ah) (List.mem_cons_self _ _))]
    exact ih (fun r hr => hpre r (List.mem_cons_of_mem _ hr))

/-- C5 (confirmed): (1) every breakpoint boundary concentration maps to the
table's boundary AQI exactly; (2) a concentration outside all rows yields
0; (3) a concentration inside a row (with earlier rows non-matching)
yields the rounded linear interpolation of that row; (4) the overall AQI
dominates, and equals one of, the five per-pollutant values. -/
theorem calculateAQI_spec :
    (∀ p : Pollutant, ∀ r ∈ breakpointsOf p,
      calculateAQIComponent (breakpointsOf p) r.1 = r.2.2.1 ∧
      calculateAQIComponent (breakpointsOf p) r.2.1 = r.2.2.2) ∧
    (∀ (bp : List AQIRow) (v : ℚ), (∀ r ∈ bp, ¬ (r.1 ≤ v ∧ v ≤ r.2.1)) →
      calculateAQIComponent bp v = 0) ∧
    (∀ (pre post : List AQIRow) (lo hi alo ahi v : ℚ),
      (∀ r ∈ pre, ¬ (r.1 ≤ v ∧ v ≤ r.2.1)) → lo ≤ v → v ≤ hi →
      calculateAQIComponent (pre ++ (lo, hi, alo, ahi) :: post) v =
        (jsRound (((ahi - alo) / (hi - lo)) * (v - lo) + alo) : ℚ)) ∧
    (∀ pv qv ov nv cv : Option ℚ,
      (calculateAQIComponent pm25Breakpoints (jsOr pv 0) ≤ calculateAQI pv qv ov nv cv ∧
       calculateAQIComponent pm10Breakpoints (jsOr qv 0) ≤ calculateAQI pv qv ov nv cv ∧
       calculateAQIComponent o3Breakpoints (jsOr ov 0) ≤ calculateAQI pv qv ov nv cv ∧
       calculateAQIComponent no2Breakpoints (jsOr nv 0) ≤ calculateAQI pv qv ov nv cv ∧
       calculateAQIComponent coBreakpoints (jsOr cv 0) ≤ calculateAQI pv qv ov nv cv) ∧
      (calculateAQI pv qv ov nv cv = calculateAQIComponent pm25Breakpoints (jsOr pv 0) ∨
       calculateAQI pv qv ov nv cv = calculateAQIComponent pm10Breakpoints (jsOr qv 0) ∨
       calculateAQI pv qv ov nv cv = calculateAQIComponent o3Breakpoints (jsOr ov 0) ∨
       calculateAQI pv qv ov nv cv = calculateAQIComponent no2Breakpoints (jsOr nv 0) ∨
       calculateAQI pv qv ov nv cv = calculateAQIComponent coBreakpoints (jsOr cv 0))) := by
  refine ⟨?_, calculateAQIComponent_no_match, calculateAQIComponent_in_row, ?_⟩
  · intro p r hr
    cases p <;> simp only [breakpointsOf] at hr <;>
      (simp only [pm25Breakpoints, pm10Breakpoints, o3Breakpoints, no2Breakpoints,
        coBreakpoints] at hr; fin_cases hr) <;>
      constructor <;> norm_num [calculateAQIComponent, jsRound]
  · intro pv qv ov nv cv
    simp only [calculateAQI]
    refine ⟨⟨?_, ?_, ?_, ?_, ?_⟩, ?_⟩
    · simp [le_max_iff]
    · simp [le_max_iff]
    · simp [le_max_iff]
    · simp [le_max_iff]
    · simp [le_max_iff]
    · rcases max_choice (max (max (max
          (calculateAQIComponent pm25Breakpoints (jsOr pv 0))
          (calculateAQIComponent pm10Breakpoints (jsOr qv 0)))
          (calculateAQIComponent o3Breakpoints (jsOr ov 0)))
          (calculateAQIComponent no2Breakpoints (jsOr nv 0)))
          (calculateAQIComponent coBreakpoints (jsOr cv 0)) with h5 | h5
      · rw [h5]
        rcases max_choice (max (max
            (calculateAQIComponent pm25Breakpoints (jsOr pv 0))
            (calculateAQIComponent pm10Breakpoints (jsOr qv 0)))
            (calculateAQIComponent o3Breakpoints (jsOr ov 0)))
            (calculateAQIComponent no2Breakpoints (jsOr nv 0)) with h4 | h4
        · rw [h4]
          rcases max_choice (max
              (calculateAQIComponent pm25Breakpoints (jsOr pv 0))
              (calculateAQIComponent pm10Breakpoints (jsOr qv 0)))
              (calculateAQIComponent o3Breakpoints (jsOr ov 0)) with h3 | h3
          · rw [h3]
            rcases max_choice
                (calculateAQIComponent pm25Breakpoints (jsOr pv 0))
                (calculateAQIComponent pm10Breakpoints (jsOr qv 0)) with h2 | h2
            · rw [h2]; tauto
            · rw [h2]; tauto
          · rw [h3]; tauto
        · rw [h4]; tauto
      · rw [h5]; tauto

/-- Witness for C5: the theorem applied at the PM2.5 boundaries 12.0 (AQI
50) and 12.1 (AQI 51), and at the out-of-table concentration 1000 (AQI 0). -/
theorem calculateAQI_spec_witness :
    calculateAQIComponent pm25Breakpoints 12 = 50 ∧
    calculateAQIComponent pm25Breakpoints 12.1 = 51 ∧
    calculateAQIComponent pm25Breakpoints 1000 = 0 :=
  ⟨(calculateAQI_spec.1 .pm25 (0, 12, 0, 50)
      (by simp [breakpointsOf, pm25Breakpoints])).2,
   (calculateAQI_spec.1 .pm25 (12.1, 35.4, 51, 100)
      (by simp [breakpointsOf, pm25Breakpoints])).1,
   calculateAQI_spec.2.1 pm25Breakpoints 1000
      (by intro r hr
          simp only [pm25Breakpoints] at hr
          fin_cases hr <;> norm_num)⟩

/-! ## Claim C3 — untrained temperature-increase prediction -/

/-- C3 counterexample: at building density 100 and surface albedo 50 (all
other inputs zero, defaults for weather), the source computes 3.555 °F but
the claimed formula — albedo normalized by 50, as in training — gives
1.455 °F: the fallback path does not normalize `surfaceAlbedo` the same
way as the training features. -/
theorem fallbackPrediction_counterexample :
    fallbackPrediction 100 0 50 0 0 0 (some 75) (some 60) ≠
      specClaimedFallbackPrediction 100 0 50 0 0 0 (some 75) (some 60) := by
  norm_num [fallbackPrediction, specClaimedFallbackPrediction, jsOr, List.foldl]

/-- C3 (amended): the untrained prediction is the fixed linear combination
with weights (+0.35, −0.42, −0.28, −0.15, +0.18, +0.22, +0.12, −0.08)
over inputs normalized as `buildingDensity/100`, `vegetationIndex/100`,
`surfaceAlbedo/100` (not `/50` as in training), `min(elevation/1000, 1)`,
`min(coastalDistance/500, 1)`, `min(populationDensity/10000, 1)`,
`currentTemp/120`, `humidity/100`, scaled by 15 and floored at 0. -/
theorem fallbackPrediction_spec (bd veg alb elev coast pop : ℚ)
    (ct hu : Option ℚ) :
    fallbackPrediction bd veg alb elev coast pop ct hu =
      max 0 (15 * (0.35 * (bd / 100) - 0.42 * (veg / 100) - 0.28 * (alb / 100)
        - 0.15 * min (elev / 1000) 1 + 0.18 * min (coast / 500) 1
        + 0.22 * min (pop / 10000) 1 + 0.12 * (jsOr ct 75 / 120)
        - 0.08 * (jsOr hu 60 / 100))) := by
  simp only [fallbackPrediction, List.foldl]
  congr 1
  ring

/-! ## Claim C4 — end-to-end synthetic-city scenario -/

/-- The six adjusted zone templates of the synthetic city, evaluated. -/
lemma syntheticConfigs_eval :
    generateCitySpecificZonesUnknown syntheticCity =
      [⟨.commercial, 100, 5⟩, ⟨.industrial, 90, 3⟩, ⟨.residential, 70, 12⟩,
       ⟨.mixed, 80, 9⟩, ⟨.commercial, 260/3, 7⟩, ⟨.residential, 155/3, 17⟩] := by
  norm_num [generateCitySpecificZonesUnknown, dynamicZoneConfigs,
    adjustZoneConfig, syntheticCity]

/-- Membership in the sorted zone list coincides with membership in the
unsorted template map. -/
lemma syntheticZones_mem_iff (z : HeatZone) :
    z ∈ syntheticZones ↔
      z ∈ (generateCitySpecificZonesUnknown syntheticCity).map
        (buildZoneUntrained syntheticCity 95 30) := by
  unfold syntheticZones generateHeatZonesUntrained
  exact (List.mergeSort_perm _ _).mem_iff

/-- The first synthetic template's zone is one of the produced zones. -/
lemma syntheticZone0_mem :
    buildZoneUntrained syntheticCity 95 30 ⟨.commercial, 100, 5⟩ ∈ syntheticZones := by
  rw [syntheticZones_mem_iff, syntheticConfigs_eval]
  simp

/-- C4 counterexample: the claim that every zone of the synthetic-city
scenario is "critical" or "high" fails — the first template's zone has
risk score ≈ 41, i.e. severity "moderate". -/
theorem syntheticZones_counterexample :
    ¬ (∀ z ∈ syntheticZones, z.severity = .critical ∨ z.severity = .high) := by
  intro hall
  have h := hall _ syntheticZone0_mem
  have hsev : (buildZoneUntrained syntheticCity 95 30
      ⟨.commercial, 100, 5⟩).severity = .moderate := by
    norm_num [buildZoneUntrained, fallbackPrediction, calculateRiskScore,
      severityFromRisk, surfaceAlbedoOf, jsOr, List.foldl, syntheticCity]
  rw [hsev] at h
  rcases h with h | h <;> exact absurd h (by simp)

/-- C4 (amended): for the synthetic city (population 1,000,000, vegetation
10 %, 95 °F average, elevation 100, coastal distance 50) and a snapshot of
95 °F / 30 % humidity, every zone produced via the untrained fallback
predictor has a temperature increase within [0, 15] — but the resulting
severities are "moderate" and "low" (risk scores 12–41), not "critical" or
"high". -/
theorem syntheticZones_spec : ∀ z ∈ syntheticZones,
    0 ≤ z.predictions.temperatureIncrease ∧
    z.predictions.temperatureIncrease ≤ 15 ∧
    (z.severity = .moderate ∨ z.severity = .low) := by
  intro z hz
  rw [syntheticZones_mem_iff, syntheticConfigs_eval] at hz
  simp only [List.mem_map, List.mem_cons, List.not_mem_nil, or_false] at hz
  obtain ⟨cfg, hcfg, rfl⟩ := hz
  rcases hcfg with rfl | rfl | rfl | rfl | rfl | rfl <;>
    norm_num [buildZoneUntrained, fallbackPrediction, calculateRiskScore,
      severityFromRisk, surfaceAlbedoOf, jsOr, jsRound, List.foldl, syntheticCity]

/-- Witness for C4: the theorem applied to the first template's zone. -/
theorem syntheticZones_spec_witness :
    0 ≤ (buildZoneUntrained syntheticCity 95 30
        ⟨.commercial, 100, 5⟩).predictions.temperatureIncrease ∧
    (buildZoneUntrained syntheticCity 95 30
        ⟨.commercial, 100, 5⟩).predictions.temperatureIncrease ≤ 15 ∧
    ((buildZoneUntrained syntheticCity 95 30
        ⟨.commercial, 100, 5⟩).severity = .moderate ∨
     (buildZoneUntrained syntheticCity 95 30
        ⟨.commercial, 100, 5⟩).severity = .low) :=
  syntheticZones_spec _ syntheticZone0_mem

/-! ## Claim C10 — trained prediction discards the caller's weather -/

/-- C10 (confirmed): in the trained state, when the real-time fetch at the
hard-coded Phoenix coordinates succeeds, the prediction is independent of
the caller-supplied `currentTemp` and `humidity`: the fetched values
overwrite them for every zone of every city. -/
theorem predictTemperatureIncrease_ignores_weather_args
    (model : List ℚ → ℚ) (service : ℚ × ℚ → Option RTWeather) (d : RTWeather)
    (bd veg alb elev coast pop : ℚ) (ct hu ct' hu' : Option ℚ)
    (hs : service phoenixCoordinates = some d) :
    predictTemperatureIncrease true model service bd veg alb elev coast pop ct hu =
    predictTemperatureIncrease true model service bd veg alb elev coast pop ct' hu' := by
  simp [predictTemperatureIncrease, hs]

/-- Witness for C10: a fetch that always succeeds with 90 °F / 50 %
humidity makes two calls with different caller weather coincide. -/
theorem predictTemperatureIncrease_ignores_weather_args_witness :
    (fun _ : ℚ × ℚ => some (⟨90, 50, none⟩ : RTWeather)) phoenixCoordinates =
      some ⟨90, 50, none⟩ ∧
    predictTemperatureIncrease true (fun l => l.sum)
      (fun _ => some ⟨90, 50, none⟩) 50 20 30 100 200 3000 (some 95) (some 30) =
    predictTemperatureIncrease true (fun l => l.sum)
      (fun _ => some ⟨90, 50, none⟩) 50 20 30 100 200 3000 (some 60) (some 80) :=
  ⟨rfl, predictTemperatureIncrease_ignores_weather_args (fun l => l.sum)
    (fun _ => some ⟨90, 50, none⟩) ⟨90, 50, none⟩ 50 20 30 100 200 3000
    (some 95) (some 30) (some 60) (some 80) rfl⟩

/-! ## Claim C8 — future climate predictions -/

/-- C8 (confirmed): `predictFutureClimate` returns exactly 10 predictions,
for the years `now+5, now+10, …, now+50`, and in every one of them
`seaLevelRise` is exactly 0 when `coastalDistance ≥ 100` and strictly
positive when `coastalDistance < 100`. -/
theorem predictFutureClimate_spec (cy : ℤ) (city : City) (zones : List HeatZone) :
    (predictFutureClimate cy city zones).length = 10 ∧
    (∀ i (hi : i < (predictFutureClimate cy city zones).length),
      ((predictFutureClimate cy city zones).get ⟨i, hi⟩).year = cy + 5 * ((i : ℤ) + 1)) ∧
    (∀ p ∈ predictFutureClimate cy city zones,
      (100 ≤ city.coastalDistance → p.seaLevelRise = 0) ∧
      (city.coastalDistance < 100 → 0 < p.seaLevelRise)) := by
  refine ⟨by simp [predictFutureClimate], ?_, ?_⟩
  · intro i hi
    simp [predictFutureClimate, List.get_eq_getElem, List.getElem_map,
      List.getElem_range]
  · intro p hp
    simp only [predictFutureClimate, List.mem_map, List.mem_range] at hp
    obtain ⟨i, hi, rfl⟩ := hp
    dsimp only
    constructor
    · intro hc
      rw [if_neg (not_lt.mpr hc)]
    · intro hc
      rw [if_pos hc]
      have h1 : (1 : ℤ) ≤ jsRound ((0.1 + 5 * ((i : ℚ) + 1) * 0.02) * 10) := by
        rw [jsRound, Int.le_floor]
        have hnn : (0 : ℚ) ≤ (i : ℚ) := Nat.cast_nonneg i
        push_cast
        nlinarith
      have h2 : (0 : ℚ) < (jsRound ((0.1 + 5 * ((i : ℚ) + 1) * 0.02) * 10) : ℚ) := by
        exact_mod_cast lt_of_lt_of_le Int.zero_lt_one h1
      positivity

/-- Witness for C8: at `currentYear = 2026`, a far-inland city (coastal
distance 200) gets `seaLevelRise = 0` for its first prediction (year
2031), while the near-coastal synthetic city (distance 50) gets a strictly
positive one. -/
theorem predictFutureClimate_spec_witness :
    (predictFutureClimate 2026 plainCity [criticalResidentialZone]).length = 10 ∧
    ((predictFutureClimate 2026 plainCity [criticalResidentialZone]).get
      ⟨0, by simp [predictFutureClimate]⟩).year = 2031 ∧
    ((predictFutureClimate 2026 plainCity [criticalResidentialZone]).get
      ⟨0, by simp [predictFutureClimate]⟩).seaLevelRise = 0 ∧
    0 < ((predictFutureClimate 2026 syntheticCity [criticalResidentialZone]).get
      ⟨0, by simp [predictFutureClimate]⟩).seaLevelRise := by
  refine ⟨(predictFutureClimate_spec 2026 plainCity [criticalResidentialZone]).1,
    ?_, ?_, ?_⟩
  · have h := (predictFutureClimate_spec 2026 plainCity
      [criticalResidentialZone]).2.1 0 (by simp [predictFutureClimate])
    rw [h]; norm_num
  · exact ((predictFutureClimate_spec 2026 plainCity
      [criticalResidentialZone]).2.2 _ (List.get_mem _ _ _)).1
      (by norm_num [plainCity])
  · exact ((predictFutureClimate_spec 2026 syntheticCity
      [criticalResidentialZone]).2.2 _ (List.get_mem _ _ _)).2
      (by norm_num [syntheticCity])

/-! ## Claim C7 — climate impact analysis resolution -/

/-- C7 counterexample: in the untrained state, `analyzeClimateImpact`
resolves, but its `futurePredictions` field is the empty list — not the
10-entry multi-decade series the claim promises. -/
theorem analyzeClimateImpact_untrained_counterexample :
    (analyzeClimateImpact false (fun _ => 0) none 2026
      [criticalResidentialZone] plainCity).futurePredictions = [] := rfl

/-- C7 (amended): `analyzeClimateImpact` always resolves to a complete
`ClimateImpact`; in the trained state `futurePredictions` is the 10-entry
5-year-step series of `predictFutureClimate`, but in the untrained state
it is empty. -/
theorem analyzeClimateImpact_spec (trained : Bool) (model : List ℚ → ℚ)
    (rt : Option RTEnvironmental) (cy : ℤ) (zones : List HeatZone) (city : City) :
    (trained = true →
      (analyzeClimateImpact trained model rt cy zones city).futurePredictions =
        predictFutureClimate cy city zones ∧
      (analyzeClimateImpact trained model rt cy zones city).futurePredictions.length
        = 10) ∧
    (trained = false →
      (analyzeClimateImpact trained model rt cy zones city).futurePredictions = []) := by
  constructor
  · rintro rfl
    refine ⟨?_, ?_⟩
    · simp [analyzeClimateImpact]
    · simp [analyzeClimateImpact, predictFutureClimate]
  · rintro rfl
    simp [analyzeClimateImpact, fallbackClimateAnalysis]

/-- Witness for C7: the theorem applied to one trained and one untrained
concrete run. -/
theorem analyzeClimateImpact_spec_witness :
    (analyzeClimateImpact true (fun _ => 0.5) none 2026
      [criticalResidentialZone] plainCity).futurePredictions.length = 10 ∧
    (analyzeClimateImpact false (fun _ => 0.5) none 2026
      [criticalResidentialZone] plainCity).futurePredictions = [] :=
  ⟨((analyzeClimateImpact_spec true (fun _ => 0.5) none 2026
      [criticalResidentialZone] plainCity).1 rfl).2,
   (analyzeClimateImpact_spec false (fun _ => 0.5) none 2026
      [criticalResidentialZone] plainCity).2 rfl⟩

/-! ## Claims C1 and C6 — action plan generation -/

/-- Every action type a zone iteration emits was unused when the zone
started processing: both halves of the candidate list are filtered against
the `usedActionTypes` set. -/
lemma mem_zoneTypes_not_used {predictFn : HeatZone → List ActionType}
    {zone : HeatZone} {city : City} {w : Option RTWeather} {env : Option RTEnv}
    {used : List ActionType} :
    ∀ a ∈ zoneTypes predictFn zone city w env used, a ∉ used := by
  intro a ha
  have hmem : a ∈ zoneCandidates predictFn zone city w env used :=
    List.take_subset _ _ ha
  simp only [zoneCandidates, List.mem_append, List.mem_filter] at hmem
  rcases hmem with ⟨_, h⟩ | ⟨_, h⟩
  · exact of_decide_eq_true h
  · simp only [Bool.and_eq_true, decide_eq_true_eq] at h
    exact h.1

/-- Every plan of the zone loop comes from a zone at or after the starting
index, and its action type is outside the starting `usedActionTypes`. -/
lemma mem_generatePlansGo {predictFn : HeatZone → List ActionType} {city : City}
    {w : Option RTWeather} {env : Option RTEnv} :
    ∀ (zs : List HeatZone) (used : List ActionType) (idx : ℕ) (p : Plan),
      p ∈ generatePlansGo predictFn city w env zs used idx →
      idx ≤ p.zoneIdx ∧ p.actionType ∉ used := by
  intro zs
  induction zs with
  | nil => intro used idx p hp; simp [generatePlansGo] at hp
  | cons z zs ih =>
    intro used idx p hp
    simp only [generatePlansGo, List.mem_append] at hp
    rcases hp with hp | hp
    · simp only [zoneStep, List.mem_map] at hp
      obtain ⟨a, ha, rfl⟩ := hp
      exact ⟨le_refl _, mem_zoneTypes_not_used a ha⟩
    · obtain ⟨hidx, hnot⟩ := ih _ _ p hp
      exact ⟨by omega, fun hm => hnot (List.mem_append_left _ hm)⟩

/-- C1 (code bug): a run of `generatePlans` CAN emit two plans with the
same action type, despite the source's stated intent "to prevent
duplicates": with high carbon emissions, a residential zone's fallback
list repeats `tree_planting`/`urban_park`, and once every unique candidate
is already used, the second critical zone emits `urban_park` twice. -/
theorem generatePlans_duplicate_type :
    ¬ (duplicateTypeRun.map (fun p => p.actionType)).Nodup := by decide

/-- C6 counterexample: in the three-zone shortfall run, the third zone
(low severity, quota 1) emits no plans at all even though four of the
eight action types are still unused — the emitted count is not
`min(quota, number of unused action types)`. -/
theorem generatePlans_count_counterexample :
    (quotaShortfallRun.filter (fun p => p.zoneIdx == 2)).length = 0 ∧
    severityQuota Severity.low = 1 ∧
    (allActionTypes.filter (fun a => decide (a ∉
        (quotaShortfallRun.filter (fun p => decide (p.zoneIdx < 2))).map
          (fun p => p.actionType)))).length = 4 ∧
    (0 : ℕ) ≠ min 1 4 := by decide

/-- Projecting the action types back out of a zone's plans recovers the
emitted type list. -/
lemma zoneStep_map_actionType (predictFn : HeatZone → List ActionType)
    (zone : HeatZone) (city : City) (w : Option RTWeather) (env : Option RTEnv)
    (used : List ActionType) (idx : ℕ) :
    (zoneStep predictFn zone city w env used idx).map (fun p => p.actionType) =
      zoneTypes predictFn zone city w env used := by
  simp only [zoneStep, List.map_map]
  exact List.map_id _

/-- One induction step: the plans of the zone at offset `i` in the loop
have length `min(quota, |candidate list at that zone's used-set|)`. -/
lemma generatePlansGo_filter_count (predictFn : HeatZone → List ActionType)
    (city : City) (w : Option RTWeather) (env : Option RTEnv) :
    ∀ (zs : List HeatZone) (used : List ActionType) (idx i : ℕ) (h : i < zs.length),
      ((generatePlansGo predictFn city w env zs used idx).filter
        (fun p => p.zoneIdx == idx + i)).length =
      min (severityQuota (zs.get ⟨i, h⟩).severity)
        (zoneCandidates predictFn (zs.get ⟨i, h⟩) city w env
          (usedAtZone predictFn city w env zs used i)).length := by
  intro zs
  induction zs with
  | nil => intro used idx i h; exact absurd h (by simp)
  | cons z zs ih =>
    intro used idx i h
    cases i with
    | zero =>
      simp only [generatePlansGo, List.filter_append, List.length_append]
      have hstep : (zoneStep predictFn z city w env used idx).filter
          (fun p => p.zoneIdx == idx + 0) =
          zoneStep predictFn z city w env used idx := by
        apply List.filter_eq_self.mpr
        intro p hp
        simp only [zoneStep, List.mem_map] at hp
        obtain ⟨a, _, rfl⟩ := hp
        simp
      have hrest : (generatePlansGo predictFn city w env zs
          (used ++ (zoneStep predictFn z city w env used idx).map
            (fun p => p.actionType)) (idx + 1)).filter
          (fun p => p.zoneIdx == idx + 0) = [] := by
        apply List.filter_eq_nil_iff.mpr
        intro p hp
        have h1 := (mem_generatePlansGo zs _ _ p hp).1
        simp only [beq_iff_eq]
        omega
      rw [hstep, hrest]
      simp only [List.length_nil, Nat.add_zero]
      simp only [zoneStep, List.length_map, zoneTypes, List.length_take]
      rfl
    | succ i' =>
      simp only [generatePlansGo, List.filter_append, List.length_append]
      have hstep : (zoneStep predictFn z city w env used idx).filter
          (fun p => p.zoneIdx == idx + (i' + 1)) = [] := by
        apply List.filter_eq_nil_iff.mpr
        intro p hp
        simp only [zoneStep, List.mem_map] at hp
        obtain ⟨a, _, rfl⟩ := hp
        simp only [beq_iff_eq]
        omega
      rw [hstep]
      simp only [List.length_nil, Nat.zero_add]
      have hidx : idx + (i' + 1) = (idx + 1) + i' := by omega
      rw [hidx, zoneStep_map_actionType]
      simp only [List.get_cons_succ, usedAtZone]
      exact ih _ (idx + 1) i' (by simpa using h)

/-- C6 (amended): the number of plans emitted for the zone at position `i`
equals `min(severity quota, length of that zone's filtered candidate list)`
— the predicted actions not yet used plus the fallback actions neither
used nor predicted — not the number of action types still unused
globally. -/
theorem generatePlans_count_per_zone (predictFn : HeatZone → List ActionType)
    (zones : List HeatZone) (city : City) (w : Option RTWeather)
    (env : Option RTEnv) (i : ℕ) (h : i < zones.length) :
    ((generatePlansWith predictFn zones city w env).filter
      (fun p => p.zoneIdx == i)).length =
    min (severityQuota (zones.get ⟨i, h⟩).severity)
      (zoneCandidates predictFn (zones.get ⟨i, h⟩) city w env
        (usedAtZone predictFn city w env zones [] i)).length := by
  have h0 := generatePlansGo_filter_count predictFn city w env zones [] 0 i h
  simpa [generatePlansWith] using h0

/-- Witness for C6: the per-zone count theorem applied at zone 2 of the
shortfall run — the candidate list there is empty, so the count is 0. -/
theorem generatePlans_count_per_zone_witness :
    ((generatePlansWith
        (fun z => enhancedFallbackActionSelection z plainCity none none)
        [criticalResidentialZone, lowResidentialZone, lowResidentialZone]
        plainCity none none).filter (fun p => p.zoneIdx == 2)).length = 0 :=
  (generatePlans_count_per_zone
    (fun z => enhancedFallbackActionSelection z plainCity none none)
    [criticalResidentialZone, lowResidentialZone, lowResidentialZone]
    plainCity none none 2 (by norm_num)).trans (by decide)

end ReLeaf
